import Mathlib

/-!
Verification of the jcx task/status lifecycle engine.

The repository contains several copies of the engine:
* `src/jcx/api/task/task.py` (`TaskDb`, assert-based guards),
* `src/jcx/api/task/task_db.py` (`TaskDb`, exception-based guards,
  additionally `task_start`),
* `src/jcx/api/task/task_client.py` (`TaskClient`, REST adapter with its
  own reimplementation of the lifecycle logic).

The first two copies share the exact same guard conditions, guard order and
field mutations, so one Lean model (`TaskDb` below) embeds both; a second
model (`TaskClient`) embeds the client copy.  Time (`now_sh_dt()`) is passed
in explicitly as a natural-number timestamp.  Python exceptions / rustshed
panics surface as `Except.error`.
-/

set_option autoImplicit false

/-- `TaskStatus` enum from `task.py` / `task_db.py` / `task_types.py`.
In `task_types.py` the value `0` is spelled `PENDING`; it is the same state
as `NOT_STARTED` (both have. value 0). -/
inductive TaskStatus where
  | NOT_STARTED
  | IN_PROGRESS
  | COMPLETED
  | ERROR
deriving DecidableEq, Repr

/-- The `IntEnum` integer value of each status (`NOT_STARTED = 0,
IN_PROGRESS = 1, COMPLETED = 2, ERROR = 3`). -/
def TaskStatus.toNat : TaskStatus → Nat
  | .NOT_STARTED => 0
  | .IN_PROGRESS => 1
  | .COMPLETED => 2
  | .ERROR => 3

/-- `TaskInfo` record (`task_db.py`); `task.py`'s `TaskInfoBase` has a subset
of these fields.  `id : Nat` embeds the integer record id of `Record`
(`src/jcx/db/record.py`). -/
structure TaskInfo where
  id : Nat
  name : String
  type : Int
  created_at : Nat
  desc : Option String := none
  data : String := ""
deriving DecidableEq, Repr

/-- `StatusInfo` record (`task_db.py` / `task.py`; `task.py` names the last
field `worker`, `task_db.py` and `task_types.py` name it `worker_id`). -/
structure StatusInfo where
  id : Nat
  status : TaskStatus := .NOT_STARTED
  progress : Int := 0
  start_time : Option Nat := none
  update_time : Option Nat := none
  enabled : Bool := true
  worker_id : Option String := none
deriving DecidableEq, Repr

/-- Error kinds raised by the `TaskDb` copies: `NotFound` (a rustshed
`.unwrap()` panic on a missing record), `InvalidState` (the "任务已完成" /
"任务已开始" guards), `InvalidArgument` (the "进度值必须在0到100之间" guard). -/
inductive TaskError where
  | NotFound
  | InvalidState
  | InvalidArgument
deriving DecidableEq, Repr

/-- Modelled from the spec: the record store (`jcx.db.jdb.table.Table`,
absent from `src/`) exposes `get(id) -> Option<Record>`; records are kept as
an ordered sequence in creation order (§4.2), so `get` is first-match by id
over that sequence. -/
def statusGet (tab : List StatusInfo) (id : Nat) : Option StatusInfo :=
  tab.find? (fun r => r.id == id)

/-- Modelled from the spec: `get` on the task table (§4.2), as `statusGet`. -/
def taskGet (tab : List TaskInfo) (id : Nat) : Option TaskInfo :=
  tab.find? (fun r => r.id == id)

/-- Modelled from the spec: `put(record)` is an upsert keyed on `id` —
it overwrites the record with the same id, preserving creation order, and
appends the record when the id is new (§4.2). -/
def statusPut : List StatusInfo → StatusInfo → List StatusInfo
  | [], r => [r]
  | s :: rest, r => if s.id == r.id then r :: rest else s :: statusPut rest r

/-- The gate of `update_progress`: the success condition
`status.status < TaskStatus.COMPLETED` (`task.py` line 107 asserts it;
`task_db.py` line 141 raises on its negation `status >= COMPLETED`). -/
def updateGate (s : TaskStatus) : Bool :=
  decide (s.toNat < TaskStatus.COMPLETED.toNat)

/-- The comparison `status.status > TaskStatus.IN_PROGRESS` used by
`find_task` (`task.py` line 86 / `task_db.py` line 108) to skip records. -/
def statusOverInProgress (s : TaskStatus) : Bool :=
  decide (TaskStatus.IN_PROGRESS.toNat < s.toNat)

/-- `find_task`'s skip condition:
`not status.enabled or status.status > TaskStatus.IN_PROGRESS`. -/
def skipStatus (s : StatusInfo) : Bool :=
  !s.enabled || statusOverInProgress s.status

/-- The `TaskDb` state: the two tables, each an ordered list of records in
creation order. -/
structure TaskDb where
  task_tab : List TaskInfo
  status_tab : List StatusInfo
deriving DecidableEq, Repr

/-- The scan loop of `TaskDb.find_task`: skip records failing the
eligibility condition; on the first record passing it, fetch its task with
`self.task_tab.get(status.id).unwrap()` (a missing task panics → `NotFound`)
and return `Some((task, status))`; an exhausted loop returns `Null`
(embedded as `.ok none`). -/
def findTaskAux (tt : List TaskInfo) : List StatusInfo → Except TaskError (Option (TaskInfo × StatusInfo))
  | [] => .ok none
  | st :: rest =>
    if skipStatus st then
      findTaskAux tt rest
    else
      match taskGet tt st.id with
      | none => .error .NotFound
      | some t => .ok (some (t, st))

/-- `TaskDb.find_task` (`task.py` lines 83–91, identical in `task_db.py`
lines 105–113): a pure query, it mutates nothing. -/
def TaskDb.find_task (db : TaskDb) : Except TaskError (Option (TaskInfo × StatusInfo)) :=
  findTaskAux db.task_tab db.status_tab

/-- `TaskDb.task_start` (`task_db.py` lines 115–125): only from
`NOT_STARTED`; sets status, `start_time = now`, `update_time = start_time`,
`worker_id = worker`; note it does NOT touch `progress`. -/
def TaskDb.task_start (db : TaskDb) (now : Nat) (task_id : Nat) (worker : Option String) : Except TaskError TaskDb :=
  match statusGet db.status_tab task_id with
  | none => .error .NotFound
  | some status =>
    if status.status = TaskStatus.NOT_STARTED then
      let s1 := { status with status := TaskStatus.IN_PROGRESS,
                              start_time := some now,
                              update_time := some now,
                              worker_id := worker }
      .ok { db with status_tab := statusPut db.status_tab s1 }
    else
      .error .InvalidState

/-- `TaskDb.task_error` (`task.py` lines 97–102 / `task_db.py` lines
131–136): unconditionally sets `status = ERROR` and `update_time = now` —
there is no check of the current status. -/
def TaskDb.task_error (db : TaskDb) (now : Nat) (task_id : Nat) : Except TaskError TaskDb :=
  match statusGet db.status_tab task_id with
  | none => .error .NotFound
  | some status =>
    let s1 := { status with status := TaskStatus.ERROR, update_time := some now }
    .ok { db with status_tab := statusPut db.status_tab s1 }

/-- `TaskDb.update_progress` (`task.py` lines 104–117 / `task_db.py` lines
138–153).  Guard order as in the source: the terminal-state check
(`status < COMPLETED`) comes BEFORE the range check (`0 <= progress <= 100`);
then `NOT_STARTED` is promoted to `IN_PROGRESS`, then
`IN_PROGRESS ∧ progress == 100` is promoted to `COMPLETED`; finally
`progress` and `update_time` are written and `start_time` is set iff unset. -/
def TaskDb.update_progress (db : TaskDb) (now : Nat) (task_id : Nat) (progress : Int) : Except TaskError TaskDb :=
  match statusGet db.status_tab task_id with
  | none => .error .NotFound
  | some status =>
    if updateGate status.status then
      if decide (0 ≤ progress) && decide (progress ≤ 100) then
        let s1 := if status.status = TaskStatus.NOT_STARTED then
                    { status with status := TaskStatus.IN_PROGRESS }
                  else status
        let s2 := if s1.status = TaskStatus.IN_PROGRESS ∧ progress = 100 then
                    { s1 with status := TaskStatus.COMPLETED }
                  else s1
        let s3 := { s2 with progress := progress, update_time := some now }
        let s4 := if s3.start_time = none then { s3 with start_time := s3.update_time } else s3
        .ok { db with status_tab := statusPut db.status_tab s4 }
      else
        .error .InvalidArgument
    else
      .error .InvalidState

/-- `TaskDb.task_done` (`task.py` lines 93–95 / `task_db.py` lines 127–129):
just `update_progress(task_id, 100)`. -/
def TaskDb.task_done (db : TaskDb) (now : Nat) (task_id : Nat) : Except TaskError TaskDb :=
  db.update_progress now task_id 100

/-- Task record of the client copy (`task_types.py` `TaskInfo`): ids are
strings there (`RecordSid`). -/
structure ClientTaskInfo where
  id : String
  name : String
  type : Int
  created_at : Nat
  desc : Option String := none
  data : String := ""
deriving DecidableEq, Repr

/-- Status record of the client copy (`task_types.py` `StatusInfo`); the
enum value 0 is spelled `PENDING` there and is embedded as `NOT_STARTED`. -/
structure ClientStatusInfo where
  id : String
  status : TaskStatus := .NOT_STARTED
  progress : Int := 0
  start_time : Option Nat := none
  update_time : Option Nat := none
  enabled : Bool := true
  worker_id : Option String := none
deriving DecidableEq, Repr

/-- Modelled from the spec: the REST DAO service behind `DaoListClient`
keeps one ordered collection per table (§4.2, §6); `get` is first-match by
string id. -/
def clientStatusGet (tab : List ClientStatusInfo) (id : String) : Option ClientStatusInfo :=
  tab.find? (fun r => r.id == id)

/-- Modelled from the spec: `get` on the client task collection (§4.2). -/
def clientTaskGet (tab : List ClientTaskInfo) (id : String) : Option ClientTaskInfo :=
  tab.find? (fun r => r.id == id)

/-- Modelled from the spec: `put` on the client status collection is an
upsert keyed on id preserving creation order (§4.2). -/
def clientStatusPut : List ClientStatusInfo → ClientStatusInfo → List ClientStatusInfo
  | [], r => [r]
  | s :: rest, r => if s.id == r.id then r :: rest else s :: clientStatusPut rest r

/-- Server-side state seen by `TaskClient`: the two collections.  The
network itself is assumed reliable (transport failures are out of scope). -/
structure ClientDb where
  tasks : List ClientTaskInfo
  statuses : List ClientStatusInfo
deriving DecidableEq, Repr

/-- `TaskClient.find_task` (`task_client.py` lines 81–110): asks the server
for statuses filtered by `{status: PENDING, enabled: true}` — so only
`NOT_STARTED` records are considered — and returns `Err` with the message
at line 101 when the filtered list is empty; otherwise takes the FIRST
filtered status and fetches its task. -/
def TaskClient.find_task (db : ClientDb) : Except String (ClientTaskInfo × ClientStatusInfo) :=
  let statuses := db.statuses.filter (fun s => s.status == TaskStatus.NOT_STARTED && s.enabled)
  match statuses with
  | [] => .error "没有找到可执行的任务"
  | first :: _ =>
    match clientTaskGet db.tasks first.id with
    | none => .error "获取任务信息失败"
    | some t => .ok (t, first)

/-- `TaskClient.task_start` (`task_client.py` lines 112–141): only from
`PENDING`; sets status `IN_PROGRESS`, `progress = 0`,
`start_time = update_time = now`.  The `worker` argument is accepted but
never written to the record in the source, hence `_worker` here. -/
def TaskClient.task_start (db : ClientDb) (now : Nat) (task_id : String) (_worker : Option String) : Except String (ClientDb × ClientStatusInfo) :=
  match clientStatusGet db.statuses task_id with
  | none => .error "任务状态不存在"
  | some status =>
    if status.status = TaskStatus.NOT_STARTED then
      let s1 := { status with status := TaskStatus.IN_PROGRESS,
                              progress := 0,
                              start_time := some now,
                              update_time := some now }
      .ok ({ db with statuses := clientStatusPut db.statuses s1 }, s1)
    else
      .error ("任务 #" ++ task_id ++ " 无法启动")

/-- `TaskClient.task_error` (`task_client.py` lines 156–176): like the
`TaskDb` copies, NO check of the current status — it unconditionally sets
`status = ERROR` and `update_time = now`. -/
def TaskClient.task_error (db : ClientDb) (now : Nat) (task_id : String) : Except String (ClientDb × ClientStatusInfo) :=
  match clientStatusGet db.statuses task_id with
  | none => .error "任务状态不存在"
  | some status =>
    let s1 := { status with status := TaskStatus.ERROR, update_time := some now }
    .ok ({ db with statuses := clientStatusPut db.statuses s1 }, s1)

/-- `TaskClient.update_progress` (`task_client.py` lines 178–212).  Order
of effects as in the source: the range check comes first (there is NO
terminal-state check in this copy); then `progress` and `update_time` are
written; then an explicit `status` override wins, else
`progress == 100 ∧ status ≠ ERROR` promotes to `COMPLETED`.  This copy has
no `NOT_STARTED → IN_PROGRESS` promotion and never writes `start_time`. -/
def TaskClient.update_progress (db : ClientDb) (now : Nat) (task_id : String) (progress : Int) (statusOverride : Option TaskStatus) : Except String (ClientDb × ClientStatusInfo) :=
  if decide (0 ≤ progress) && decide (progress ≤ 100) then
    match clientStatusGet db.statuses task_id with
    | none => .error "任务状态不存在"
    | some status_info =>
      let s1 := { status_info with progress := progress, update_time := some now }
      let s2 := match statusOverride with
        | some st => { s1 with status := st }
        | none =>
          if progress = 100 ∧ s1.status ≠ TaskStatus.ERROR then
            { s1 with status := TaskStatus.COMPLETED }
          else s1
      .ok ({ db with statuses := clientStatusPut db.statuses s2 }, s2)
  else
    .error ("无效的进度值: " ++ toString progress ++ "，必须在 0-100 之间")

/-- `TaskClient.task_done` (`task_client.py` lines 143–154):
`update_progress(task_id, 100, COMPLETED)`. -/
def TaskClient.task_done (db : ClientDb) (now : Nat) (task_id : String) : Except String (ClientDb × ClientStatusInfo) :=
  TaskClient.update_progress db now task_id 100 (some TaskStatus.COMPLETED)

lemma statusGet_some_id {tab : List StatusInfo} {id : Nat} {s : StatusInfo}
    (h : statusGet tab id = some s) : s.id = id := by
  have := List.find?_some h
  simpa using this

lemma statusGet_statusPut (tab : List StatusInfo) (r : StatusInfo) :
    statusGet (statusPut tab r) r.id = some r := by
  induction tab with
  | nil => simp [statusPut, statusGet, List.find?]
  | cons s rest ih =>
    by_cases h : s.id = r.id
    · simp [statusPut, statusGet, List.find?, h]
    · have hb : (s.id == r.id) = false := by simp [h]
      simp only [statusPut, hb, if_neg]
      simp only [statusGet, List.find?, hb] at ih ⊢
      simpa using ih

lemma skipStatus_false_iff (s : StatusInfo) :
    skipStatus s = false ↔
      (s.enabled = true ∧ (s.status = TaskStatus.NOT_STARTED ∨ s.status = TaskStatus.IN_PROGRESS)) := by
  rcases s with ⟨id, st, p, t0, t1, en, w⟩
  cases en <;> cases st <;>
    simp [skipStatus, statusOverInProgress, TaskStatus.toNat]

lemma skipStatus_true_iff (s : StatusInfo) :
    skipStatus s = true ↔
      ¬(s.enabled = true ∧ (s.status = TaskStatus.NOT_STARTED ∨ s.status = TaskStatus.IN_PROGRESS)) := by
  rw [← skipStatus_false_iff]
  cases skipStatus s <;> simp

lemma findTaskAux_append_skip (tt : List TaskInfo) (pre rest : List StatusInfo)
    (h : ∀ r ∈ pre, skipStatus r = true) :
    findTaskAux tt (pre ++ rest) = findTaskAux tt rest := by
  induction pre with
  | nil => rfl
  | cons a l ih =>
    have ha : skipStatus a = true := h a (by simp)
    show findTaskAux tt (a :: (l ++ rest)) = findTaskAux tt rest
    rw [findTaskAux, if_pos ha]
    exact ih (fun r hr => h r (by simp [hr]))

/-- C9: under the source encoding (`NOT_STARTED=0, IN_PROGRESS=1,
COMPLETED=2, ERROR=3`), the `update_progress` gate `status < COMPLETED` and
the `find_task` eligibility test `not (status > IN_PROGRESS)` are the same
predicate on `TaskStatus`, accepting exactly `{NOT_STARTED, IN_PROGRESS}`
and rejecting exactly `{COMPLETED, ERROR}`. -/
theorem c9_gate_equivalence (s : TaskStatus) :
    updateGate s = !statusOverInProgress s
    ∧ (updateGate s = true ↔ (s = TaskStatus.NOT_STARTED ∨ s = TaskStatus.IN_PROGRESS))
    ∧ (updateGate s = false ↔ (s = TaskStatus.COMPLETED ∨ s = TaskStatus.ERROR)) := by
  cases s <;> exact ⟨rfl, by decide, by decide⟩

def c3Task : TaskInfo := { id := 1, name := "t1", type := 1, created_at := 0 }

def c3Status : StatusInfo := { id := 1 }

/-- C3: `TaskDb.find_task` does NOT perform the start transition.  On a
store holding one enabled `NOT_STARTED` status, the call selects the task
but the returned status record is still `NOT_STARTED` with `progress = 0`,
no worker and no `start_time` — and `find_task`, being a pure query (its
result carries no updated store), leaves the store untouched.  This
contradicts the claim that selection and start happen as one operation. -/
theorem c3_find_task_performs_no_start :
    TaskDb.find_task { task_tab := [c3Task], status_tab := [c3Status] }
        = .ok (some (c3Task, c3Status))
    ∧ c3Status.status = TaskStatus.NOT_STARTED
    ∧ c3Status.progress = 0
    ∧ c3Status.worker_id = none
    ∧ c3Status.start_time = none := by
  exact ⟨rfl, rfl, rfl, rfl, rfl⟩

/-- C2 (amended): selection behavior of the two `find_task` copies.
`TaskDb.find_task` scans the status table in creation order, returns the
first record with `enabled = true` and status in
`{NOT_STARTED, IN_PROGRESS}` paired with its task, and returns the empty
result `.ok none` (not an error) when no record qualifies.
`TaskClient.find_task`, by contrast, considers only `NOT_STARTED` records
and returns an error, not an empty result, when none matches. -/
theorem c2_find_task_selection :
    (∀ db : TaskDb,
      (∀ r ∈ db.status_tab,
          ¬(r.enabled = true ∧ (r.status = TaskStatus.NOT_STARTED ∨ r.status = TaskStatus.IN_PROGRESS))) →
      db.find_task = .ok none)
    ∧ (∀ (tt : List TaskInfo) (pre : List StatusInfo) (s : StatusInfo) (rest : List StatusInfo) (t : TaskInfo),
        (∀ r ∈ pre,
            ¬(r.enabled = true ∧ (r.status = TaskStatus.NOT_STARTED ∨ r.status = TaskStatus.IN_PROGRESS))) →
        s.enabled = true →
        (s.status = TaskStatus.NOT_STARTED ∨ s.status = TaskStatus.IN_PROGRESS) →
        taskGet tt s.id = some t →
        findTaskAux tt (pre ++ s :: rest) = .ok (some (t, s)))
    ∧ (∀ db : ClientDb,
        (∀ s ∈ db.statuses, ¬(s.status = TaskStatus.NOT_STARTED ∧ s.enabled = true)) →
        TaskClient.find_task db = .error "没有找到可执行的任务") := by
  refine ⟨?_, ?_, ?_⟩
  · intro db h
    have h2 : ∀ r ∈ db.status_tab, skipStatus r = true := by
      intro r hr; exact (skipStatus_true_iff r).mpr (h r hr)
    show findTaskAux db.task_tab db.status_tab = .ok none
    calc findTaskAux db.task_tab db.status_tab
        = findTaskAux db.task_tab (db.status_tab ++ []) := by rw [List.append_nil]
      _ = findTaskAux db.task_tab [] := findTaskAux_append_skip _ _ _ h2
      _ = .ok none := rfl
  · intro tt pre s rest t hpre hen hst hget
    have h2 : ∀ r ∈ pre, skipStatus r = true := by
      intro r hr; exact (skipStatus_true_iff r).mpr (hpre r hr)
    rw [findTaskAux_append_skip tt pre (s :: rest) h2]
    have hs : skipStatus s = false := (skipStatus_false_iff s).mpr ⟨hen, hst⟩
    rw [findTaskAux, if_neg (by simp [hs]), hget]
  · intro db h
    have hfilter : db.statuses.filter (fun s => s.status == TaskStatus.NOT_STARTED && s.enabled) = [] := by
      rw [List.filter_eq_nil_iff]
      intro s hs
      have := h s hs
      simp only [Bool.and_eq_true, beq_iff_eq]
      intro hc
      exact this ⟨hc.1, hc.2⟩
    show TaskClient.find_task db = .error "没有找到可执行的任务"
    unfold TaskClient.find_task
    rw [hfilter]

def c2Status : StatusInfo := { id := 4, status := TaskStatus.IN_PROGRESS }

def c2Task : TaskInfo := { id := 4, name := "t4", type := 2, created_at := 3 }

def c2DoneStatus : StatusInfo := { id := 9, status := TaskStatus.COMPLETED }

def c2ClientStatus : ClientStatusInfo := { id := "9", status := TaskStatus.COMPLETED }

/-- C2 witness: the three parts of `c2_find_task_selection` applied to
concrete stores. -/
theorem c2_find_task_selection_witness :
    TaskDb.find_task { task_tab := [], status_tab := [c2DoneStatus] } = .ok none
    ∧ findTaskAux [c2Task] [c2Status] = .ok (some (c2Task, c2Status))
    ∧ TaskClient.find_task { tasks := [], statuses := [c2ClientStatus] } = .error "没有找到可执行的任务" := by
  refine ⟨?_, ?_, ?_⟩
  · exact c2_find_task_selection.1 { task_tab := [], status_tab := [c2DoneStatus] } (by decide)
  · exact c2_find_task_selection.2.1 [c2Task] [] c2Status [] c2Task (by simp) (by decide) (by decide) (by decide)
  · exact c2_find_task_selection.2.2 { tasks := [], statuses := [c2ClientStatus] } (by decide)

def c2cexTask : ClientTaskInfo := { id := "1", name := "t", type := 1, created_at := 0 }

def c2cexStatus : ClientStatusInfo := { id := "1", status := TaskStatus.IN_PROGRESS }

/-- C2 counterexample: in the `TaskClient` copy an enabled `IN_PROGRESS`
record — eligible per the claim — is NOT selected, and the call reports an
error rather than the empty result. -/
theorem c2_counterexample :
    c2cexStatus.enabled = true
    ∧ c2cexStatus.status = TaskStatus.IN_PROGRESS
    ∧ TaskClient.find_task { tasks := [c2cexTask], statuses := [c2cexStatus] }
        = .error "没有找到可执行的任务" := by
  exact ⟨rfl, rfl, rfl⟩

/-- C8: when the scan of `TaskDb.find_task` reaches the first eligible
status record and that record's id has no task in the task table, the call
fails with `NotFound` — it neither skips the record (the records after it
are never inspected) nor reports the empty result. -/
theorem c8_missing_task_is_notfound (db : TaskDb) (pre : List StatusInfo) (s : StatusInfo) (rest : List StatusInfo)
    (hsplit : db.status_tab = pre ++ s :: rest)
    (hpre : ∀ r ∈ pre,
        ¬(r.enabled = true ∧ (r.status = TaskStatus.NOT_STARTED ∨ r.status = TaskStatus.IN_PROGRESS)))
    (hen : s.enabled = true)
    (hst : s.status = TaskStatus.NOT_STARTED ∨ s.status = TaskStatus.IN_PROGRESS)
    (hmiss : taskGet db.task_tab s.id = none) :
    db.find_task = .error TaskError.NotFound := by
  have h2 : ∀ r ∈ pre, skipStatus r = true := by
    intro r hr; exact (skipStatus_true_iff r).mpr (hpre r hr)
  show findTaskAux db.task_tab db.status_tab = .error TaskError.NotFound
  rw [hsplit, findTaskAux_append_skip db.task_tab pre (s :: rest) h2]
  have hs : skipStatus s = false := (skipStatus_false_iff s).mpr ⟨hen, hst⟩
  rw [findTaskAux, if_neg (by simp [hs]), hmiss]

def c8Status : StatusInfo := { id := 2 }

/-- C8 witness: `c8_missing_task_is_notfound` on a store holding one
eligible status whose task record is absent. -/
theorem c8_missing_task_is_notfound_witness :
    TaskDb.find_task { task_tab := [], status_tab := [c8Status] } = .error TaskError.NotFound := by
  exact c8_missing_task_is_notfound { task_tab := [], status_tab := [c8Status] }
    [] c8Status [] rfl (by simp) (by decide) (by decide) (by decide)

lemma updateGate_true_of_active {s : TaskStatus}
    (h : s = TaskStatus.NOT_STARTED ∨ s = TaskStatus.IN_PROGRESS) : updateGate s = true := by
  rcases h with h | h <;> simp [updateGate, h, TaskStatus.toNat]

lemma updateGate_false_of_terminal {s : TaskStatus}
    (h : s = TaskStatus.COMPLETED ∨ s = TaskStatus.ERROR) : updateGate s = false := by
  rcases h with h | h <;> simp [updateGate, h, TaskStatus.toNat]

lemma update_progress_not_started (db : TaskDb) (now task_id : Nat) (p : Int) (s : StatusInfo)
    (hget : statusGet db.status_tab task_id = some s)
    (hns : s.status = TaskStatus.NOT_STARTED)
    (h0 : 0 ≤ p) (h1 : p ≤ 100) :
    db.update_progress now task_id p = .ok { db with status_tab := statusPut db.status_tab (
      { s with status := if p = 100 then TaskStatus.COMPLETED else TaskStatus.IN_PROGRESS,
               progress := p,
               update_time := some now,
               start_time := if s.start_time = none then some now else s.start_time }) } := by
  have hb : (decide (0 ≤ p) && decide (p ≤ 100)) = true := by simp [h0, h1]
  simp only [TaskDb.update_progress, hget]
  rw [if_pos (updateGate_true_of_active (Or.inl hns)), if_pos hb]
  by_cases hp : p = 100 <;> by_cases hstart : s.start_time = none <;>
    simp [hns, hp, hstart]

lemma update_progress_in_progress (db : TaskDb) (now task_id : Nat) (p : Int) (s : StatusInfo)
    (hget : statusGet db.status_tab task_id = some s)
    (hip : s.status = TaskStatus.IN_PROGRESS)
    (h0 : 0 ≤ p) (h1 : p ≤ 100) :
    db.update_progress now task_id p = .ok { db with status_tab := statusPut db.status_tab (
      { s with status := if p = 100 then TaskStatus.COMPLETED else TaskStatus.IN_PROGRESS,
               progress := p,
               update_time := some now,
               start_time := if s.start_time = none then some now else s.start_time }) } := by
  have hb : (decide (0 ≤ p) && decide (p ≤ 100)) = true := by simp [h0, h1]
  simp only [TaskDb.update_progress, hget]
  rw [if_pos (updateGate_true_of_active (Or.inr hip)), if_pos hb]
  by_cases hp : p = 100 <;> by_cases hstart : s.start_time = none <;>
    simp [hip, hp, hstart]

/-- C1 (amended): the gating of `update_progress` differs across the cited
copies.  In the `TaskDb` copies (`task.py` / `task_db.py`), for an id
present in the status store and `progress ∈ [0,100]`, the call succeeds iff
the current status is `NOT_STARTED` or `IN_PROGRESS`; for `progress`
outside `[0,100]` it always fails, but NOT always with `InvalidArgument`:
the terminal-state check precedes the range check, so from `COMPLETED` or
`ERROR` the failure is `InvalidState`.  The `TaskClient` copy has NO
terminal-state gate at all: with in-range progress it succeeds from every
current status on a present id — `COMPLETED` and `ERROR` included — and
with out-of-range progress it always fails with the range error, whatever
the current status, because its range check comes first. -/
theorem c1_update_progress_gating :
    (∀ (db : TaskDb) (now task_id : Nat) (p : Int) (s : StatusInfo),
      statusGet db.status_tab task_id = some s →
      ((0 ≤ p ∧ p ≤ 100) →
        ((∃ db2, db.update_progress now task_id p = .ok db2) ↔
          (s.status = TaskStatus.NOT_STARTED ∨ s.status = TaskStatus.IN_PROGRESS)))
      ∧ (¬(0 ≤ p ∧ p ≤ 100) →
          ((s.status = TaskStatus.NOT_STARTED ∨ s.status = TaskStatus.IN_PROGRESS) →
              db.update_progress now task_id p = .error TaskError.InvalidArgument)
          ∧ ((s.status = TaskStatus.COMPLETED ∨ s.status = TaskStatus.ERROR) →
              db.update_progress now task_id p = .error TaskError.InvalidState)))
    ∧ (∀ (db : ClientDb) (now : Nat) (task_id : String) (p : Int),
        (¬(0 ≤ p ∧ p ≤ 100) →
          TaskClient.update_progress db now task_id p none
            = .error ("无效的进度值: " ++ toString p ++ "，必须在 0-100 之间"))
        ∧ (∀ s : ClientStatusInfo, clientStatusGet db.statuses task_id = some s →
            (0 ≤ p ∧ p ≤ 100) →
            ∃ res, TaskClient.update_progress db now task_id p none = .ok res)) := by
  constructor
  · intro db now task_id p s hget
    constructor
    · intro hp
      constructor
      · rintro ⟨db2, h2⟩
        by_contra hc
        push_neg at hc
        have hterm : s.status = TaskStatus.COMPLETED ∨ s.status = TaskStatus.ERROR := by
          cases hs : s.status
          · exact absurd hs hc.1
          · exact absurd hs hc.2
          · exact Or.inl rfl
          · exact Or.inr rfl
        have hg := updateGate_false_of_terminal hterm
        simp only [TaskDb.update_progress, hget] at h2
        rw [if_neg (by simp [hg])] at h2
        exact Except.noConfusion h2
      · intro hst
        rcases hst with h | h
        · exact ⟨_, update_progress_not_started db now task_id p s hget h hp.1 hp.2⟩
        · exact ⟨_, update_progress_in_progress db now task_id p s hget h hp.1 hp.2⟩
    · intro hp
      have hb : (decide (0 ≤ p) && decide (p ≤ 100)) = false := by
        by_cases h0 : 0 ≤ p
        · by_cases h1 : p ≤ 100
          · exact absurd ⟨h0, h1⟩ hp
          · simp [h1]
        · simp [h0]
      constructor
      · intro hst
        simp only [TaskDb.update_progress, hget]
        rw [if_pos (updateGate_true_of_active hst), if_neg (by simp [hb])]
      · intro hst
        simp only [TaskDb.update_progress, hget]
        rw [if_neg (by simp [updateGate_false_of_terminal hst])]
  · intro db now task_id p
    constructor
    · intro hp
      have hb : (decide (0 ≤ p) && decide (p ≤ 100)) = false := by
        by_cases h0 : 0 ≤ p
        · by_cases h1 : p ≤ 100
          · exact absurd ⟨h0, h1⟩ hp
          · simp [h1]
        · simp [h0]
      simp only [TaskClient.update_progress]
      rw [if_neg (by simp [hb])]
    · intro s hget hp
      have hb : (decide (0 ≤ p) && decide (p ≤ 100)) = true := by simp [hp.1, hp.2]
      simp only [TaskClient.update_progress]
      rw [if_pos hb]
      simp only [hget]
      exact ⟨_, rfl⟩

def c1Status : StatusInfo := { id := 1, status := TaskStatus.IN_PROGRESS, progress := 10 }

def c1DoneStatus : StatusInfo := { id := 1, status := TaskStatus.COMPLETED, progress := 100 }

def c1ClientDone : ClientStatusInfo := { id := "d", status := TaskStatus.COMPLETED, progress := 100 }

/-- C1 witness: `c1_update_progress_gating` applied to concrete stores —
an in-range update on an `IN_PROGRESS` record succeeds, an out-of-range
update on it fails `InvalidArgument`, an out-of-range update on a
`COMPLETED` record fails `InvalidState`; and in the client copy an
out-of-range update on a `COMPLETED` record fails with the range error
while an in-range update on it succeeds. -/
theorem c1_update_progress_gating_witness :
    (∃ db2, TaskDb.update_progress { task_tab := [], status_tab := [c1Status] } 5 1 50 = .ok db2)
    ∧ TaskDb.update_progress { task_tab := [], status_tab := [c1Status] } 5 1 150
        = .error TaskError.InvalidArgument
    ∧ TaskDb.update_progress { task_tab := [], status_tab := [c1DoneStatus] } 5 1 150
        = .error TaskError.InvalidState
    ∧ TaskClient.update_progress { tasks := [], statuses := [c1ClientDone] } 5 "d" 150 none
        = .error ("无效的进度值: " ++ toString (150 : Int) ++ "，必须在 0-100 之间")
    ∧ (∃ res, TaskClient.update_progress { tasks := [], statuses := [c1ClientDone] } 5 "d" 50 none
        = .ok res) := by
  refine ⟨?_, ?_, ?_, ?_, ?_⟩
  · exact ((c1_update_progress_gating.1 { task_tab := [], status_tab := [c1Status] } 5 1 50 c1Status
      (by decide)).1 (by decide)).mpr (by decide)
  · exact ((c1_update_progress_gating.1 { task_tab := [], status_tab := [c1Status] } 5 1 150 c1Status
      (by decide)).2 (by decide)).1 (by decide)
  · exact ((c1_update_progress_gating.1 { task_tab := [], status_tab := [c1DoneStatus] } 5 1 150 c1DoneStatus
      (by decide)).2 (by decide)).2 (by decide)
  · exact (c1_update_progress_gating.2 { tasks := [], statuses := [c1ClientDone] } 5 "d" 150).1
      (by decide)
  · exact (c1_update_progress_gating.2 { tasks := [], statuses := [c1ClientDone] } 5 "d" 50).2
      c1ClientDone (by decide) (by decide)

def c1cexStatus : StatusInfo := { id := 8, status := TaskStatus.COMPLETED, progress := 100 }

def c1cexClientStatus : ClientStatusInfo := { id := "x", status := TaskStatus.COMPLETED, progress := 100 }

def c1cexClientAfter : ClientStatusInfo := { id := "x", status := TaskStatus.COMPLETED, progress := 50,
                                             update_time := some 2 }

/-- C1 counterexample: two violations of the claim as stated.  In the
`TaskDb` copies, with current status `COMPLETED` and the out-of-range
progress `150`, `update_progress` fails with `InvalidState`, not with the
`InvalidArgument` the claim demands for every out-of-range progress.  In
the `TaskClient` copy, the in-range update `update_progress(id, 50)` on a
`COMPLETED` record succeeds outright, violating the claimed
succeeds-iff-non-terminal equivalence. -/
theorem c1_counterexample :
    c1cexStatus.status = TaskStatus.COMPLETED
    ∧ TaskDb.update_progress { task_tab := [], status_tab := [c1cexStatus] } 2 8 150
        = .error TaskError.InvalidState
    ∧ TaskError.InvalidState ≠ TaskError.InvalidArgument
    ∧ c1cexClientStatus.status = TaskStatus.COMPLETED
    ∧ TaskClient.update_progress { tasks := [], statuses := [c1cexClientStatus] } 2 "x" 50 none
        = .ok ({ tasks := [], statuses := [c1cexClientAfter] }, c1cexClientAfter) := by
  exact ⟨rfl, rfl, by decide, rfl, rfl⟩

/-- C4 (amended): terminal-state protection exists only in the `TaskDb`
copies, and even there not for `task_error`.  `TaskDb`: on a record whose
status is `COMPLETED` or `ERROR`, `task_start`, `update_progress` and
`task_done` all fail with `InvalidState` (returning no new store, so status
and progress are untouched), while `task_error` succeeds from any status,
rewriting `status` to `ERROR` and `update_time` to `now` — so a `COMPLETED`
record is not immutable — though it never changes `progress`.
`TaskClient`: terminal records are not protected at all — `update_progress`
with in-range progress succeeds on a `COMPLETED` or `ERROR` record and
overwrites its `progress` field, and `task_error` likewise succeeds
unconditionally, rewriting `status` and `update_time`. -/
theorem c4_terminal_states :
    (∀ (db : TaskDb) (now task_id : Nat) (worker : Option String) (p : Int) (s : StatusInfo),
      statusGet db.status_tab task_id = some s →
      (s.status = TaskStatus.COMPLETED ∨ s.status = TaskStatus.ERROR) →
      db.task_start now task_id worker = .error TaskError.InvalidState
      ∧ db.update_progress now task_id p = .error TaskError.InvalidState
      ∧ db.task_done now task_id = .error TaskError.InvalidState
      ∧ db.task_error now task_id = .ok { db with status_tab := statusPut db.status_tab (
          { s with status := TaskStatus.ERROR, update_time := some now }) }
      ∧ ({ s with status := TaskStatus.ERROR, update_time := some now } : StatusInfo).progress
          = s.progress)
    ∧ (∀ (db : ClientDb) (now : Nat) (task_id : String) (p : Int) (s : ClientStatusInfo),
        clientStatusGet db.statuses task_id = some s →
        (s.status = TaskStatus.COMPLETED ∨ s.status = TaskStatus.ERROR) →
        0 ≤ p → p ≤ 100 → p ≠ 100 →
        TaskClient.update_progress db now task_id p none
          = .ok ({ db with statuses := clientStatusPut db.statuses (
              { s with progress := p, update_time := some now }) },
              { s with progress := p, update_time := some now })
        ∧ ({ s with progress := p, update_time := some now } : ClientStatusInfo).progress = p)
    ∧ (∀ (db : ClientDb) (now : Nat) (task_id : String) (s : ClientStatusInfo),
        clientStatusGet db.statuses task_id = some s →
        TaskClient.task_error db now task_id
          = .ok ({ db with statuses := clientStatusPut db.statuses (
              { s with status := TaskStatus.ERROR, update_time := some now }) },
              { s with status := TaskStatus.ERROR, update_time := some now })) := by
  refine ⟨?_, ?_, ?_⟩
  · intro db now task_id worker p s hget hterm
    have hup : db.update_progress now task_id p = .error TaskError.InvalidState := by
      simp only [TaskDb.update_progress, hget]
      rw [if_neg (by simp [updateGate_false_of_terminal hterm])]
    refine ⟨?_, hup, ?_, ?_, rfl⟩
    · simp only [TaskDb.task_start, hget]
      rw [if_neg ?_]
      rcases hterm with h | h <;> simp [h]
    · show db.update_progress now task_id 100 = .error TaskError.InvalidState
      simp only [TaskDb.update_progress, hget]
      rw [if_neg (by simp [updateGate_false_of_terminal hterm])]
    · simp only [TaskDb.task_error, hget]
  · intro db now task_id p s hget hterm h0 h1 hp
    refine ⟨?_, rfl⟩
    have hb : (decide (0 ≤ p) && decide (p ≤ 100)) = true := by simp [h0, h1]
    simp only [TaskClient.update_progress]
    rw [if_pos hb]
    simp only [hget]
    simp [hp]
  · intro db now task_id s hget
    simp only [TaskClient.task_error, hget]

def c4Status : StatusInfo := { id := 1, status := TaskStatus.ERROR, progress := 42 }

def c4ClientStatus : ClientStatusInfo := { id := "e", status := TaskStatus.ERROR, progress := 60 }

def c4ClientDone : ClientStatusInfo := { id := "f", status := TaskStatus.COMPLETED, progress := 100 }

/-- C4 witness: `c4_terminal_states` on concrete stores — the engine-side
operations on an `ERROR` record, a client-side in-range update on an
`ERROR` record, and a client-side `task_error` on a `COMPLETED` record. -/
theorem c4_terminal_states_witness :
    TaskDb.task_start { task_tab := [], status_tab := [c4Status] } 5 1 none
        = .error TaskError.InvalidState
    ∧ TaskDb.update_progress { task_tab := [], status_tab := [c4Status] } 5 1 13
        = .error TaskError.InvalidState
    ∧ TaskDb.task_done { task_tab := [], status_tab := [c4Status] } 5 1
        = .error TaskError.InvalidState
    ∧ TaskDb.task_error { task_tab := [], status_tab := [c4Status] } 5 1
        = .ok { task_tab := [], status_tab := statusPut [c4Status] (
            { c4Status with status := TaskStatus.ERROR, update_time := some 5 }) }
    ∧ ({ c4Status with status := TaskStatus.ERROR, update_time := some 5 } : StatusInfo).progress
        = c4Status.progress
    ∧ TaskClient.update_progress { tasks := [], statuses := [c4ClientStatus] } 5 "e" 13 none
        = .ok ({ tasks := [], statuses := clientStatusPut [c4ClientStatus] (
            { c4ClientStatus with progress := 13, update_time := some 5 }) },
            { c4ClientStatus with progress := 13, update_time := some 5 })
    ∧ TaskClient.task_error { tasks := [], statuses := [c4ClientDone] } 5 "f"
        = .ok ({ tasks := [], statuses := clientStatusPut [c4ClientDone] (
            { c4ClientDone with status := TaskStatus.ERROR, update_time := some 5 }) },
            { c4ClientDone with status := TaskStatus.ERROR, update_time := some 5 }) := by
  have h := c4_terminal_states.1 { task_tab := [], status_tab := [c4Status] } 5 1 none 13 c4Status
    (by decide) (by decide)
  have hF := (c4_terminal_states.2.1 { tasks := [], statuses := [c4ClientStatus] } 5 "e" 13
    c4ClientStatus (by decide) (by decide) (by norm_num) (by norm_num) (by norm_num)).1
  have hG := c4_terminal_states.2.2 { tasks := [], statuses := [c4ClientDone] } 5 "f" c4ClientDone
    (by decide)
  exact ⟨h.1, h.2.1, h.2.2.1, h.2.2.2.1, h.2.2.2.2, hF, hG⟩

def c4cexStatus : StatusInfo := { id := 3, status := TaskStatus.COMPLETED, progress := 100 }

def c4cexAfter : StatusInfo := { id := 3, status := TaskStatus.ERROR, progress := 100, update_time := some 7 }

def c4cexClientStatus : ClientStatusInfo := { id := "y", status := TaskStatus.COMPLETED, progress := 100 }

def c4cexClientAfter : ClientStatusInfo := { id := "y", status := TaskStatus.COMPLETED, progress := 13,
                                             update_time := some 7 }

/-- C4 counterexample: two violations of the claim as stated.  In the
`TaskDb` copies, `task_error` on a `COMPLETED` record does not fail — it
succeeds and changes the status field to `ERROR`.  In the `TaskClient`
copy, `update_progress(id, 13)` on a `COMPLETED` record succeeds and
overwrites its progress field.  So `COMPLETED` is not terminal under the
lifecycle operations as the claim states. -/
theorem c4_counterexample :
    c4cexStatus.status = TaskStatus.COMPLETED
    ∧ TaskDb.task_error { task_tab := [], status_tab := [c4cexStatus] } 7 3
        = .ok { task_tab := [], status_tab := [c4cexAfter] }
    ∧ c4cexAfter.status = TaskStatus.ERROR
    ∧ c4cexAfter.status ≠ c4cexStatus.status
    ∧ c4cexClientStatus.status = TaskStatus.COMPLETED
    ∧ TaskClient.update_progress { tasks := [], statuses := [c4cexClientStatus] } 7 "y" 13 none
        = .ok ({ tasks := [], statuses := [c4cexClientAfter] }, c4cexClientAfter)
    ∧ c4cexClientAfter.progress ≠ c4cexClientStatus.progress := by
  exact ⟨rfl, rfl, rfl, by decide, rfl, rfl, by decide⟩

/-- C5 (amended): `task_error` sets `status = ERROR` and
`update_time = now` and leaves `progress` unchanged from EVERY current
status — including `COMPLETED` and `ERROR`; the source has no
`InvalidState` guard, and the only failure is `NotFound` for an id absent
from the status store. -/
theorem c5_task_error_unguarded (db : TaskDb) (now task_id : Nat) :
    (statusGet db.status_tab task_id = none →
        db.task_error now task_id = .error TaskError.NotFound)
    ∧ (∀ s : StatusInfo, statusGet db.status_tab task_id = some s →
        db.task_error now task_id = .ok { db with status_tab := statusPut db.status_tab (
            { s with status := TaskStatus.ERROR, update_time := some now }) }
        ∧ ({ s with status := TaskStatus.ERROR, update_time := some now } : StatusInfo).progress
            = s.progress) := by
  constructor
  · intro hnone
    simp only [TaskDb.task_error, hnone]
  · intro s hget
    refine ⟨?_, rfl⟩
    simp only [TaskDb.task_error, hget]

def c5Status : StatusInfo := { id := 11, status := TaskStatus.COMPLETED, progress := 55 }

/-- C5 witness: `c5_task_error_unguarded` on an unknown id and on a
`COMPLETED` record. -/
theorem c5_task_error_unguarded_witness :
    TaskDb.task_error { task_tab := [], status_tab := [] } 9 11 = .error TaskError.NotFound
    ∧ TaskDb.task_error { task_tab := [], status_tab := [c5Status] } 9 11
        = .ok { task_tab := [], status_tab := statusPut [c5Status] (
            { c5Status with status := TaskStatus.ERROR, update_time := some 9 }) }
    ∧ ({ c5Status with status := TaskStatus.ERROR, update_time := some 9 } : StatusInfo).progress
        = c5Status.progress := by
  refine ⟨?_, ?_, ?_⟩
  · exact (c5_task_error_unguarded { task_tab := [], status_tab := [] } 9 11).1 (by decide)
  · exact ((c5_task_error_unguarded { task_tab := [], status_tab := [c5Status] } 9 11).2
      c5Status (by decide)).1
  · exact ((c5_task_error_unguarded { task_tab := [], status_tab := [c5Status] } 9 11).2
      c5Status (by decide)).2

def c5cexStatus : StatusInfo := { id := 12, status := TaskStatus.COMPLETED, progress := 100 }

def c5cexAfter : StatusInfo := { id := 12, status := TaskStatus.ERROR, progress := 100, update_time := some 4 }

/-- C5 counterexample: with current status `COMPLETED`, `task_error` does
not fail with `InvalidState` as the claim requires — it succeeds. -/
theorem c5_counterexample :
    c5cexStatus.status = TaskStatus.COMPLETED
    ∧ TaskDb.task_error { task_tab := [], status_tab := [c5cexStatus] } 4 12
        = .ok { task_tab := [], status_tab := [c5cexAfter] }
    ∧ TaskDb.task_error { task_tab := [], status_tab := [c5cexStatus] } 4 12
        ≠ .error TaskError.InvalidState := by
  refine ⟨rfl, rfl, ?_⟩
  intro h
  rw [show TaskDb.task_error { task_tab := [], status_tab := [c5cexStatus] } 4 12
        = Except.ok { task_tab := [], status_tab := [c5cexAfter] } from rfl] at h
  exact Except.noConfusion h

/-- C6 (amended): `TaskDb.task_start` succeeds exactly when the current
status is `NOT_STARTED`; on success the record becomes `IN_PROGRESS` with
the worker stored and `start_time = update_time = now`, but `progress` is
left at its prior value — the source does not reset it to 0; from any
other status the call fails with `InvalidState` and changes nothing. -/
theorem c6_task_start (db : TaskDb) (now task_id : Nat) (worker : Option String) (s : StatusInfo)
    (hget : statusGet db.status_tab task_id = some s) :
    (s.status = TaskStatus.NOT_STARTED →
        db.task_start now task_id worker = .ok { db with status_tab := statusPut db.status_tab (
          { s with status := TaskStatus.IN_PROGRESS, start_time := some now,
                   update_time := some now, worker_id := worker }) }
        ∧ ({ s with status := TaskStatus.IN_PROGRESS, start_time := some now,
                    update_time := some now, worker_id := worker } : StatusInfo).progress
            = s.progress)
    ∧ (s.status ≠ TaskStatus.NOT_STARTED →
        db.task_start now task_id worker = .error TaskError.InvalidState) := by
  constructor
  · intro hns
    refine ⟨?_, rfl⟩
    simp only [TaskDb.task_start, hget]
    rw [if_pos hns]
  · intro hns
    simp only [TaskDb.task_start, hget]
    rw [if_neg hns]

def c6Status : StatusInfo := { id := 2, status := TaskStatus.NOT_STARTED }

def c6IpStatus : StatusInfo := { id := 2, status := TaskStatus.IN_PROGRESS }

/-- C6 witness: `c6_task_start` on a `NOT_STARTED` record (success) and on
an `IN_PROGRESS` record (`InvalidState`). -/
theorem c6_task_start_witness :
    TaskDb.task_start { task_tab := [], status_tab := [c6Status] } 8 2 (some "w1")
        = .ok { task_tab := [], status_tab := statusPut [c6Status] (
            { c6Status with status := TaskStatus.IN_PROGRESS, start_time := some 8,
                            update_time := some 8, worker_id := some "w1" }) }
    ∧ TaskDb.task_start { task_tab := [], status_tab := [c6IpStatus] } 8 2 (some "w1")
        = .error TaskError.InvalidState := by
  constructor
  · exact ((c6_task_start { task_tab := [], status_tab := [c6Status] } 8 2 (some "w1") c6Status
      (by decide)).1 (by decide)).1
  · exact (c6_task_start { task_tab := [], status_tab := [c6IpStatus] } 8 2 (some "w1") c6IpStatus
      (by decide)).2 (by decide)

def c6cexStatus : StatusInfo := { id := 5, status := TaskStatus.NOT_STARTED, progress := 37 }

def c6cexAfter : StatusInfo := { id := 5, status := TaskStatus.IN_PROGRESS, progress := 37,
                                 start_time := some 4, update_time := some 4, worker_id := some "w7" }

/-- C6 counterexample: starting a `NOT_STARTED` record whose progress field
holds 37 leaves progress at 37 — `task_start` does not set `progress = 0`
as the claim states. -/
theorem c6_counterexample :
    c6cexStatus.status = TaskStatus.NOT_STARTED
    ∧ TaskDb.task_start { task_tab := [], status_tab := [c6cexStatus] } 4 5 (some "w7")
        = .ok { task_tab := [], status_tab := [c6cexAfter] }
    ∧ c6cexAfter.progress = 37
    ∧ c6cexAfter.progress ≠ 0 := by
  exact ⟨rfl, rfl, rfl, by decide⟩

/-- C7 (amended): the two copies of `update_progress` promote differently.
`TaskDb.update_progress` (no override parameter) promotes `NOT_STARTED` to
`IN_PROGRESS`, further to `COMPLETED` when `progress = 100`, and sets
`start_time` if unset.  `TaskClient.update_progress` (the only copy with a
`status_override`) applies a supplied override unconditionally — it wins
over the automatic promotion — and with no override promotes to `COMPLETED`
exactly when `progress = 100` and the current status is not `ERROR`; but it
performs NO `NOT_STARTED → IN_PROGRESS` promotion and never writes
`start_time`. -/
theorem c7_progress_promotions :
    (∀ (db : TaskDb) (now task_id : Nat) (p : Int) (s : StatusInfo),
        statusGet db.status_tab task_id = some s →
        s.status = TaskStatus.NOT_STARTED → 0 ≤ p → p ≤ 100 →
        db.update_progress now task_id p = .ok { db with status_tab := statusPut db.status_tab (
          { s with status := if p = 100 then TaskStatus.COMPLETED else TaskStatus.IN_PROGRESS,
                   progress := p, update_time := some now,
                   start_time := if s.start_time = none then some now else s.start_time }) })
    ∧ (∀ (db : ClientDb) (now : Nat) (task_id : String) (p : Int) (st : TaskStatus) (s : ClientStatusInfo),
        clientStatusGet db.statuses task_id = some s → 0 ≤ p → p ≤ 100 →
        TaskClient.update_progress db now task_id p (some st)
          = .ok ({ db with statuses := clientStatusPut db.statuses (
              { s with progress := p, update_time := some now, status := st }) },
              { s with progress := p, update_time := some now, status := st }))
    ∧ (∀ (db : ClientDb) (now : Nat) (task_id : String) (s : ClientStatusInfo),
        clientStatusGet db.statuses task_id = some s → s.status ≠ TaskStatus.ERROR →
        TaskClient.update_progress db now task_id 100 none
          = .ok ({ db with statuses := clientStatusPut db.statuses (
              { s with progress := 100, update_time := some now, status := TaskStatus.COMPLETED }) },
              { s with progress := 100, update_time := some now, status := TaskStatus.COMPLETED }))
    ∧ (∀ (db : ClientDb) (now : Nat) (task_id : String) (p : Int) (s : ClientStatusInfo),
        clientStatusGet db.statuses task_id = some s →
        s.status = TaskStatus.NOT_STARTED → 0 ≤ p → p ≤ 100 → p ≠ 100 →
        TaskClient.update_progress db now task_id p none
          = .ok ({ db with statuses := clientStatusPut db.statuses (
              { s with progress := p, update_time := some now }) },
              { s with progress := p, update_time := some now })
        ∧ ({ s with progress := p, update_time := some now } : ClientStatusInfo).status
            = TaskStatus.NOT_STARTED
        ∧ ({ s with progress := p, update_time := some now } : ClientStatusInfo).start_time
            = s.start_time) := by
  refine ⟨?_, ?_, ?_, ?_⟩
  · intro db now task_id p s hget hns h0 h1
    exact update_progress_not_started db now task_id p s hget hns h0 h1
  · intro db now task_id p st s hget h0 h1
    have hb : (decide (0 ≤ p) && decide (p ≤ 100)) = true := by simp [h0, h1]
    simp only [TaskClient.update_progress]
    rw [if_pos hb]
    simp only [hget]
  · intro db now task_id s hget hne
    simp only [TaskClient.update_progress]
    rw [if_pos (by decide)]
    simp only [hget]
    simp [hne]
  · intro db now task_id p s hget hns h0 h1 hp
    refine ⟨?_, hns, rfl⟩
    have hb : (decide (0 ≤ p) && decide (p ≤ 100)) = true := by simp [h0, h1]
    simp only [TaskClient.update_progress]
    rw [if_pos hb]
    simp only [hget]
    simp [hp]

def c7DbStatus : StatusInfo := { id := 7 }

def c7ClientStatus : ClientStatusInfo := { id := "a" }

def c7ClientIp : ClientStatusInfo := { id := "b", status := TaskStatus.IN_PROGRESS }

/-- C7 witness: the four parts of `c7_progress_promotions` on concrete
stores: an engine-side update from `NOT_STARTED` promotes to `IN_PROGRESS`
and stamps `start_time`; a client-side override to `ERROR` wins; a
client-side `progress = 100` with no override completes an `IN_PROGRESS`
record; a client-side `progress = 50` on a `NOT_STARTED` record leaves it
`NOT_STARTED` with no `start_time`. -/
theorem c7_progress_promotions_witness :
    TaskDb.update_progress { task_tab := [], status_tab := [c7DbStatus] } 2 7 40
      = .ok { task_tab := [], status_tab := [
          { c7DbStatus with status := TaskStatus.IN_PROGRESS, progress := 40,
                            update_time := some 2, start_time := some 2 }] }
    ∧ TaskClient.update_progress { tasks := [], statuses := [c7ClientStatus] } 2 "a" 60 (some TaskStatus.ERROR)
      = .ok ({ tasks := [], statuses := [
            { c7ClientStatus with progress := 60, update_time := some 2, status := TaskStatus.ERROR }] },
          { c7ClientStatus with progress := 60, update_time := some 2, status := TaskStatus.ERROR })
    ∧ TaskClient.update_progress { tasks := [], statuses := [c7ClientIp] } 2 "b" 100 none
      = .ok ({ tasks := [], statuses := [
            { c7ClientIp with progress := 100, update_time := some 2, status := TaskStatus.COMPLETED }] },
          { c7ClientIp with progress := 100, update_time := some 2, status := TaskStatus.COMPLETED })
    ∧ TaskClient.update_progress { tasks := [], statuses := [c7ClientStatus] } 2 "a" 50 none
      = .ok ({ tasks := [], statuses := [
            { c7ClientStatus with progress := 50, update_time := some 2 }] },
          { c7ClientStatus with progress := 50, update_time := some 2 }) := by
  refine ⟨?_, ?_, ?_, ?_⟩
  · have h := c7_progress_promotions.1 { task_tab := [], status_tab := [c7DbStatus] } 2 7 40 c7DbStatus
      (by decide) (by decide) (by norm_num) (by norm_num)
    simpa using h
  · have h := c7_progress_promotions.2.1 { tasks := [], statuses := [c7ClientStatus] } 2 "a" 60
      TaskStatus.ERROR c7ClientStatus (by decide) (by norm_num) (by norm_num)
    simpa using h
  · have h := c7_progress_promotions.2.2.1 { tasks := [], statuses := [c7ClientIp] } 2 "b" c7ClientIp
      (by decide) (by decide)
    simpa using h
  · have h := (c7_progress_promotions.2.2.2 { tasks := [], statuses := [c7ClientStatus] } 2 "a" 50
      c7ClientStatus (by decide) (by decide) (by norm_num) (by norm_num) (by norm_num)).1
    simpa using h

def c7cexStatus : ClientStatusInfo := { id := "c7" }

def c7cexAfter : ClientStatusInfo := { id := "c7", progress := 50, update_time := some 6 }

/-- C7 counterexample: in the copy that supports `status_override`
(`TaskClient.update_progress`), a successful in-range update on a
`NOT_STARTED` record does NOT promote it to `IN_PROGRESS` and does not set
`start_time` — the claimed automatic promotion is absent there. -/
theorem c7_counterexample :
    c7cexStatus.status = TaskStatus.NOT_STARTED
    ∧ TaskClient.update_progress { tasks := [], statuses := [c7cexStatus] } 6 "c7" 50 none
        = .ok ({ tasks := [], statuses := [c7cexAfter] }, c7cexAfter)
    ∧ c7cexAfter.status = TaskStatus.NOT_STARTED
    ∧ c7cexAfter.status ≠ TaskStatus.IN_PROGRESS
    ∧ c7cexAfter.start_time = none := by
  exact ⟨rfl, rfl, rfl, by decide, rfl⟩

/-- C10: on a `NOT_STARTED` record, a single `task_done` call — with no
prior `start` — succeeds: inside the one underlying `update_progress(id,
100)` call the record is first promoted `NOT_STARTED → IN_PROGRESS` and
then, since `progress = 100`, promoted to `COMPLETED`, with
`progress = 100`, `update_time = now`, and `start_time` set (to
`update_time` when it was previously unset). -/
theorem c10_done_from_not_started (db : TaskDb) (now task_id : Nat) (s : StatusInfo)
    (hget : statusGet db.status_tab task_id = some s)
    (hns : s.status = TaskStatus.NOT_STARTED) :
    db.task_done now task_id = .ok { db with status_tab := statusPut db.status_tab (
      { s with status := TaskStatus.COMPLETED, progress := 100, update_time := some now,
               start_time := if s.start_time = none then some now else s.start_time }) } := by
  show db.update_progress now task_id 100 = _
  have h := update_progress_not_started db now task_id 100 s hget hns (by norm_num) (by norm_num)
  simpa using h

def c10Status : StatusInfo := { id := 6 }

/-- C10 witness: `c10_done_from_not_started` on a fresh `NOT_STARTED`
record with no `start_time`: one `task_done` leaves it `COMPLETED` at
`progress = 100` with `start_time = update_time = now`. -/
theorem c10_done_from_not_started_witness :
    TaskDb.task_done { task_tab := [], status_tab := [c10Status] } 3 6
      = .ok { task_tab := [], status_tab := [
          { c10Status with status := TaskStatus.COMPLETED, progress := 100,
                           update_time := some 3, start_time := some 3 }] } := by
  have h := c10_done_from_not_started { task_tab := [], status_tab := [c10Status] } 3 6 c10Status
    (by decide) (by decide)
  simpa using h
